import Mathlib

/-!
Verification development for the banded semi-global alignment engine
(`src/gaba.c` of the minialign repository).

The definitions below are shallow embeddings of the corresponding C
functions; each definition's doc comment names the source function (and
line range) it was translated from.  Machine integers are modelled as
`Int`/`Nat`; 8-bit quantities are wrapped through `i8` where the C code
performs an `int8_t` conversion.  SIMD lane vectors (`nvec_t`,
`v16i8_t`, `v2i32_t`) are modelled as functions out of `Fin` types or
as pairs; their per-lane arithmetic follows the spec's description of
the three-tier score representation, since the `arch/` vector headers
are not part of `src/`.
-/

set_option maxRecDepth 8000

/-- BLK = 32 (`gaba.c:116`). -/
def BLK : Nat := 32

/-- Default bandwidth BW = 32 (`gaba.c:53`); 16-lane builds use 16. -/
def BW : Nat := 32

/-- PSUM_BASE (`gaba.c:123`). -/
def PSUM_BASE : Int := 1

/-- MEM_INIT_SIZE = 256 MiB (`gaba.c:121`). -/
def MEM_INIT_SIZE : Nat := 256 * 1024 * 1024

/-- MEM_MARGIN_SIZE (`gaba.c:122`). -/
def MEM_MARGIN_SIZE : Nat := 2048

/-- MEM_ALIGN_SIZE (`gaba.c:120`). -/
def MEM_ALIGN_SIZE : Nat := 32

/-- Loop status CONT (`gaba.c:580`). -/
def CONT : Nat := 0

/-- Loop status UPDATE (`gaba.c:581`). -/
def UPDATE : Nat := 0x0100

/-- Loop status TERM (`gaba.c:582`). -/
def TERM : Nat := 0x0200

/-- Modelled from the spec: `GABA_STATUS_UPDATE_A` lives in the header
`gaba.h`, which is not under `src/`; spec section 6 gives the status bit
layout `UPDATE_A = 0x01`. -/
def UPDATE_A : Nat := 0x01

/-- Modelled from the spec: `GABA_STATUS_UPDATE_B = 0x02` (spec section 6;
header `gaba.h` not under `src/`). -/
def UPDATE_B : Nat := 0x02

/-- Two's-complement wrap of an integer to `int8_t`. -/
def i8 (x : Int) : Int := (x + 128) % 256 - 128

/-- `_roundup(x, base)` (`gaba.c:593`), for `base` a power of two. -/
def roundup (x base : Nat) : Nat := (x + base - 1) / base * base

/-- `struct gaba_params_s`: the public scoring-parameter struct.  The
score fields are `int8_t` in C; they are stored here as the wrapped
integer values. -/
structure GabaParams where
  m : Int
  x : Int
  gi : Int
  ge : Int
  xdrop : Int
  filter_thresh : Int
  head_margin : Int
  tail_margin : Int
  deriving Repr, DecidableEq

/-- The gap-penalty model compiled into one object (`MODEL`,
`gaba.c:34`–`43`): `LINEAR = 1` or `AFFINE = 2`. -/
inductive Model where
  | linear
  | affine
  deriving Repr, DecidableEq

/-- `gaba_init_restore_default_params` (`gaba.c:3862`–`3880`): if all four
scores are zero substitute `m = x = gi = ge = 1`, and restore `xdrop = 50`
and `filter_thresh = 0` (and zero margins) when the stored value is zero. -/
def gaba_init_restore_default_params (p : GabaParams) : GabaParams :=
  let p :=
    if p.m = 0 ∧ p.x = 0 ∧ p.gi = 0 ∧ p.ge = 0 then
      { p with m := 1, x := 1, gi := 1, ge := 1 }
    else p
  { p with
    xdrop := if p.xdrop = 0 then 50 else p.xdrop,
    filter_thresh := if p.filter_thresh = 0 then 0 else p.filter_thresh,
    head_margin := if p.head_margin = 0 then 0 else p.head_margin,
    tail_margin := if p.tail_margin = 0 then 0 else p.tail_margin }

/-- `gaba_init_check_score` (`gaba.c:3886`–`3901`): returns `true` when
the scores are rejected.  The locals are `int8_t m = params->m,
ge = -params->ge, gi = -params->gi`. -/
def gaba_init_check_score (model : Model) (p : GabaParams) : Bool :=
  let m := i8 p.m
  let ge := i8 (-(i8 p.ge))
  let gi := i8 (-(i8 p.gi))
  match model with
  | Model.linear => decide (m - 2 * (ge + gi) > 255) || decide (ge + gi > 0)
  | Model.affine =>
      decide (m - 2 * (ge + gi) > 31) || decide (ge < gi) ||
      decide (ge + gi < -7)

/-- The scoring fields copied into the DP context template by
`gaba_init_fill_dp_context` (`gaba.c:4204`–`4233`). -/
structure GabaEngine where
  m : Int
  x : Int
  gi : Int
  ge : Int
  tx : Int
  tf : Int
  deriving Repr, DecidableEq

/-- `gaba_init_fill_dp_context` (`gaba.c:4204`–`4233`), restricted to the
scalar scoring fields. -/
def gaba_init_fill_dp_context (model : Model) (p : GabaParams) : GabaEngine :=
  { m := p.m
    x := -p.x
    gi := match model with | Model.linear => 0 | Model.affine => -p.gi
    ge := match model with
          | Model.linear => -(p.gi + p.ge)
          | Model.affine => -p.ge
    tx := p.xdrop
    tf := p.filter_thresh }

/-- `gaba_init` (`gaba.c:4238`–`4276`): `NULL` params gives `NULL`;
otherwise restore defaults, reject when `gaba_init_check_score` fails,
and build the context (host allocation is modelled as succeeding). -/
def gaba_init (model : Model) (params : Option GabaParams) :
    Option GabaEngine :=
  match params with
  | none => none
  | some p =>
    let pIntl := gaba_init_restore_default_params p
    if gaba_init_check_score model pIntl then none
    else some (gaba_init_fill_dp_context model pIntl)

/-- The constraint set stated by claim C2, read over the user-facing
parameter fields. -/
def claimScoreConstraints (model : Model) (p : GabaParams) : Prop :=
  match model with
  | Model.linear => p.m - 2 * (p.gi + p.ge) ≤ 255 ∧ p.gi + p.ge ≥ 0
  | Model.affine =>
      p.m - 2 * (p.gi + p.ge) ≤ 31 ∧ p.ge ≤ p.gi ∧ p.gi + p.ge ≥ -7

instance (model : Model) (p : GabaParams) :
    Decidable (claimScoreConstraints model p) := by
  cases model <;> simp [claimScoreConstraints] <;> infer_instance

/-- The accept condition actually enforced by `gaba_init_check_score`,
written over the user-facing parameter fields (`m, gi, ge` are the
caller-supplied `int8_t` values, before the internal negation). -/
def codeScoreConstraints (model : Model) (p : GabaParams) : Prop :=
  match model with
  | Model.linear => p.m + 2 * (p.gi + p.ge) ≤ 255 ∧ 0 ≤ p.gi + p.ge
  | Model.affine =>
      p.m + 2 * (p.gi + p.ge) ≤ 31 ∧ p.ge ≤ p.gi ∧ p.gi + p.ge ≤ 7

instance (model : Model) (p : GabaParams) :
    Decidable (codeScoreConstraints model p) := by
  cases model <;> simp [codeScoreConstraints] <;> infer_instance

/-! ## Arena allocator (`gaba_dp_add_stack` / `gaba_dp_malloc`) -/

/-- `sizeof(struct gaba_mem_block_s)` (`gaba.c:458`–`464`): the header at
the start of every chained region. -/
def MEM_BLOCK_HEADER : Nat := 32

/-- The allocator state of a DP context: the current region's size, the
sizes of the regions already chained after it (`curr_mem->next` links),
and the bump pointer `stack_top` / limit `stack_end` as byte offsets
inside the current region (`gaba.c:488`–`491`). -/
structure DpStack where
  curr_size : Nat
  nexts : List Nat
  stack_top : Nat
  stack_end : Nat
  deriving Repr, DecidableEq

/-- `gaba_dp_add_stack` (`gaba.c:4336`–`4361`): when no region is chained,
allocate a fresh one of **twice the current size** (the `size` argument is
ignored by the C code), link it and move onto it; otherwise follow the
forward link.  Host allocation is modelled as succeeding. -/
def gaba_dp_add_stack (s : DpStack) (_size : Nat) : DpStack :=
  match s.nexts with
  | [] =>
    let next_size := s.curr_size * 2
    { curr_size := next_size
      nexts := []
      stack_top := MEM_BLOCK_HEADER
      stack_end := next_size - MEM_MARGIN_SIZE }
  | n :: rest =>
    { curr_size := n
      nexts := rest
      stack_top := MEM_BLOCK_HEADER
      stack_end := n - MEM_MARGIN_SIZE }

/-- `gaba_dp_malloc` (`gaba.c:4428`–`4446`): round the request up to
32-byte alignment, switch regions via `gaba_dp_add_stack` if it does not
fit, then bump `stack_top` **without re-checking the fit**.  Returns the
new state and the offset of the returned pointer inside the (possibly
new) current region. -/
def gaba_dp_malloc (s : DpStack) (size : Nat) : DpStack × Nat :=
  let sz := roundup size MEM_ALIGN_SIZE
  if s.stack_end - s.stack_top < sz then
    let s1 := gaba_dp_add_stack s size
    ({ s1 with stack_top := s1.stack_top + sz }, s1.stack_top)
  else
    ({ s with stack_top := s.stack_top + sz }, s.stack_top)

/-- The allocator state right after `gaba_dp_init` (`gaba.c:4291`–`4331`):
one 256 MiB region, `stack_top` just past the 896-byte DP context,
`stack_end` at `MEM_INIT_SIZE - MEM_MARGIN_SIZE`. -/
def gaba_dp_init_stack : DpStack :=
  { curr_size := MEM_INIT_SIZE
    nexts := []
    stack_top := 896
    stack_end := MEM_INIT_SIZE - MEM_MARGIN_SIZE }

/-! ## Ungapped filter (`fill_gapless_filter`) -/

/-- `_match` aliases `_and_n` (`gaba.c:733`–`737`): two 4-bit-encoded
symbols match when their bitwise AND is non-zero. -/
def nibbleMatch (a b : Nat) : Bool := decide (Nat.land a b ≠ 0)

/-- Lane read of a 32-byte char vector (`struct gaba_char_vec_s`,
`gaba.c:242`–`245`): byte `k` holds an A symbol in the low nibble and a
B symbol in the high nibble. -/
def chv (w : Fin 32 → Nat) (j : Nat) : Nat :=
  if h : j < 32 then w ⟨j, h⟩ else 0

/-- `a0` of `fill_gapless_filter` (`gaba.c:1114`): the byte-reversed low
nibbles of `ch.w[0..15]`. -/
def filt_a0 (w : Fin 32 → Nat) (i : Nat) : Nat := chv w (15 - i) % 16

/-- `b0` of `fill_gapless_filter` (`gaba.c:1115`): the high nibbles of
`ch.w[16..31]`, byte-shifted down by one. -/
def filt_b0 (w : Fin 32 → Nat) (i : Nat) : Nat :=
  if i < 15 then chv w (17 + i) / 16 % 16 else 0

/-- `a1 = _bsr_v16i8(a0, 1)` (`gaba.c:1118`). -/
def filt_a1 (w : Fin 32 → Nat) (i : Nat) : Nat :=
  if i < 15 then filt_a0 w (i + 1) else 0

/-- `b1 = _bsr_v16i8(b0, 1)` (`gaba.c:1119`). -/
def filt_b1 (w : Fin 32 → Nat) (i : Nat) : Nat :=
  if i < 15 then filt_b0 w (i + 1) else 0

/-- Whether lane `i` matches on one of the three diagonals tested by
`fill_gapless_filter` (`m1`, `m2`, `m3`, `gaba.c:1130`–`1132`). -/
def filt_lane_match (w : Fin 32 → Nat) (i : Nat) : Bool :=
  nibbleMatch (filt_a0 w i) (filt_b1 w i) ||
  nibbleMatch (filt_a0 w i) (filt_b0 w i) ||
  nibbleMatch (filt_a1 w i) (filt_b0 w i)

/-- `popcnt` of `cnt_mask` (`gaba.c:1142`–`1143`): the number of lanes of
the 16-wide window matching on at least one of the three diagonals. -/
def filt_match_count (w : Fin 32 → Nat) : Nat :=
  ((Finset.range 16).filter (fun i => filt_lane_match w i = true)).card

/-- `fill_gapless_filter` (`gaba.c:1103`–`1149`): `CONT` when the match
count strictly exceeds `tf`, else `TERM`. -/
def fill_gapless_filter (w : Fin 32 → Nat) (tf : Nat) : Nat :=
  if filt_match_count w > tf then CONT else TERM

/-- Match on a single diagonal `d ∈ {0,1,2}` at window lane `i`, following
the three diagonal pairings the filter inspects. -/
def specDiagMatch (w : Fin 32 → Nat) (d i : Nat) : Bool :=
  match d with
  | 0 => nibbleMatch (filt_a0 w i) (filt_b1 w i)
  | 1 => nibbleMatch (filt_a0 w i) (filt_b0 w i)
  | _ => nibbleMatch (filt_a1 w i) (filt_b0 w i)

/-- The spec-side predicate of claim C4: the char vectors contain a
diagonal run of at least `len` consecutive matches (within the window
the filter scans). -/
def specRunExists (w : Fin 32 → Nat) (len : Nat) : Bool :=
  (List.range 3).any fun d =>
    (List.range 16).any fun i =>
      decide (i + len ≤ 16) &&
      ((List.range len).all fun j => specDiagMatch w d (i + j))

/-- Concrete char vector: A symbols `1` at window lanes 5..7 (bytes
8..10), B symbols `1` at the facing lanes (bytes 22..24), everything else
zero — a central-diagonal run of exactly three matches. -/
def c4CharVec : Fin 32 → Nat := fun k =>
  if (k : Nat) = 8 ∨ (k : Nat) = 9 ∨ (k : Nat) = 10 then 1
  else if (k : Nat) = 22 ∨ (k : Nat) = 23 ∨ (k : Nat) = 24 then 16
  else 0

/-! ## Joint tails, the root template, and the small-fill slice -/

/-- `struct gaba_joint_tail_s` (`gaba.c:297`–`315`). -/
structure JointTail where
  psum : Int
  p : Int
  ssum : Nat
  max : Int
  stat : Nat
  rem_len : Nat
  apos : Int
  bpos : Int
  alen : Int
  blen : Int
  aid : Nat
  bid : Nat
  deriving Repr, DecidableEq

/-- The fields of `struct gaba_block_s` (`gaba.c:250`–`260`) read by
`fill_create_tail`: the remaining section indices, the per-lane running
small-max vector `sd.max`, the 64-bit offset, and the middle-delta
profile referenced by the block. -/
structure BlockState where
  aridx : Int
  bridx : Int
  smax : Fin 32 → Int
  offset : Int
  md : Fin 32 → Int
  deriving DecidableEq

/-- `_hmax_w`: horizontal maximum over the 32 lanes.  The vector
primitive lives in the `arch/` headers (not under `src/`); modelled from
the spec as the plain lane maximum. -/
def hmax32 (f : Fin 32 → Int) : Int :=
  (List.finRange 32).foldl (fun a k => max a (f k)) (f ⟨0, by decide⟩)

/-- `fill_create_tail` (`gaba.c:1217`–`1284`): append a joint tail after a
fill.  `alen, blen, aid, bid` are the current section lengths and ids held
in the reader (`self->w.r`), `p` the number of antidiagonals filled, and
`stat` the loop status.  The status stored is
`stat | mask(aridx == 0, bridx == 0)` (`gaba.c:1282`). -/
def fill_create_tail (prev : JointTail) (blk : BlockState)
    (alen blen : Int) (aid bid : Nat) (p : Int) (stat : Nat) : JointTail :=
  let np := if prev.psum < 0 then max (p + prev.psum) 0 else p
  { psum := p + prev.psum
    p := np
    ssum := prev.ssum + 1
    max := hmax32 (fun k => blk.md k + blk.smax k) + blk.offset
    stat := stat |||
      ((if blk.aridx = 0 then UPDATE_A else 0) |||
       (if blk.bridx = 0 then UPDATE_B else 0))
    rem_len := 0
    apos := if blk.aridx = 0 then 0 else alen - blk.aridx
    bpos := if blk.bridx = 0 then 0 else blen - blk.bridx
    alen := alen
    blen := blen
    aid := aid
    bid := bid }

/-- `struct gaba_joint_block_s` (`gaba.c:822`–`826`), with the block
pointer replaced by the `aridx`/`bridx` the fetch stored into it. -/
structure JointBlockResult where
  aridx : Int
  bridx : Int
  p : Int
  stat : Nat
  deriving Repr, DecidableEq

/-- The index arithmetic of `fill_init_fetch` (`gaba.c:965`–`1035`),
called with `prevPsum < 0`: split the remaining initialisation count
`prem = -psum` into per-sequence remainders, clip by the available
section lengths, consume `len = rem - nrem` symbols of each, and report
`UPDATE` when either remaining index reaches zero.  `_sar_v2i32(·, 1)` is
the arithmetic shift, i.e. floor division by two (floor division `· / 2`). -/
def fill_init_fetch (prevPsum : Int) (aridx bridx : Int) : JointBlockResult :=
  let prem := -prevPsum
  let arem := (prem + 1) / 2
  let brem := prem / 2
  let na := max (arem - aridx) 0
  let nb := max (brem - bridx) 0
  let na2 := max na nb
  let nb2 := max nb (na - 1)
  let lena := arem - na2
  let lenb := brem - nb2
  { aridx := aridx - lena
    bridx := bridx - lenb
    p := lena + lenb
    stat := if aridx - lena = 0 ∨ bridx - lenb = 0 then UPDATE else CONT }

/-- Slice of `fill_create_phantom_block` (`gaba.c:1155`–`1210`) composed
with `fill_seq_bounded` (`gaba.c:1855`–`1891`) and
`fill_section_seq_bounded` (`gaba.c:1897`–`1946`): the path taken when
the previous tail still has `psum < 0`, the init fetch leaves
`psum + p < 0` (so the gapless filter is not invoked), and the fetch
status is not `CONT` (so no DP block is relaxed and the tail is created
immediately).  All other paths enter the DP core and return `none`.
`pblk` is the last block of the previous tail, whose `diff`/`sd` vectors,
offset and middle-delta pointer the phantom block copies
(`gaba.c:1170`–`1178`). -/
def fill_small (prev : JointTail) (pblk : BlockState)
    (alen blen : Int) (aid bid : Nat) : Option JointTail :=
  if 0 ≤ prev.psum then none
  else
    let r := fill_init_fetch prev.psum (alen - prev.apos) (blen - prev.bpos)
    if 0 ≤ prev.psum + r.p then none
    else if r.stat = CONT then none
    else some (fill_create_tail prev
      { pblk with aridx := r.aridx, bridx := r.bridx }
      alen blen aid bid r.p r.stat)

/-- `gaba_init_create_small_delta` (`gaba.c:3963`–`3987`) lane profile for
`BW = 32`: `relax = -128 / BW = -4`, the same values filling both
`sd.delta` and `sd.max`. -/
def gaba_init_create_small_delta_lane (k : Fin 32) : Int :=
  if (k : Nat) < 16 then (-4) * ((16 : Int) - (k : Nat))
  else (-4) * (((k : Nat) : Int) - 16)

/-- `gaba_init_fill_middle_delta` (`gaba.c:3992`–`4014`) for the affine
model at `BW = 32`: `relax = 128 / BW = 4`, `coef = -m + 2*ge + relax`,
`ofs = gi` (`m, ge, gi` already carry the internal signs), with the
centre lane forced to zero. -/
def gaba_init_fill_middle_delta (m ge gi : Int) (k : Fin 32) : Int :=
  if (k : Nat) = 16 then 0
  else if (k : Nat) < 16 then gi + (-m + 2 * ge + 4) * ((16 : Int) - (k : Nat))
  else gi + (-m + 2 * ge + 4) * (((k : Nat) : Int) - 16)

/-- The middle-delta profile of the default-parameter engine
(`m = x = gi = ge = 1`, so internally `m = 1, ge = -1, gi = -1`). -/
def root_md : Fin 32 → Int := gaba_init_fill_middle_delta 1 (-1) (-1)

/-- The root phantom block written by `gaba_init_fill_phantom`
(`gaba.c:4150`–`4172`) for the default-parameter engine: zero offset and
indices, init small-delta and middle-delta profiles. -/
def root_block : BlockState :=
  { aridx := 0
    bridx := 0
    smax := gaba_init_create_small_delta_lane
    offset := 0
    md := root_md }

/-- The root tail written by `gaba_init_fill_phantom`
(`gaba.c:4174`–`4196`): `psum = PSUM_BASE - BW`, everything else zeroed,
sentinel section ids. -/
def root_tail : JointTail :=
  { psum := PSUM_BASE - 32
    p := 0
    ssum := 0
    max := 0
    stat := CONT
    rem_len := 0
    apos := 0
    bpos := 0
    alen := 0
    blen := 0
    aid := 0xfffc
    bid := 0xfffd }

/-- `gaba_dp_fill_root` (`gaba.c:1953`–`1967`) on a fresh default-engine
DP context, restricted to the `fill_small` slice: store `apos`/`bpos`
into the root tail and run the fill. -/
def gaba_dp_fill_root_small (alen blen : Int) (aid bid : Nat)
    (apos bpos : Int) : Option JointTail :=
  fill_small { root_tail with apos := apos, bpos := bpos } root_block
    alen blen aid bid

/-! ## The delta/offset lane algebra of the fill engine -/

/-- The register state carried through a block fill
(`_fill_load_context`, `gaba.c:1290`–`1346`): the small-delta and
running-max lanes and the large offset.  Lane values are the integer
quantities of the spec's three-tier score representation; the saturating
8-bit vector primitives live in `arch/` (not under `src/`). -/
structure FillLanes where
  delta : Fin 32 → Int
  maxv : Fin 32 → Int
  offset : Int

/-- `_fill_update_delta` (`gaba.c:1407`–`1413`): add the step's per-lane
increment `w` (the shifted difference vector plus its direction constant,
with the model's sign) into `delta`, then fold into the running max. -/
def fill_update_delta (s : FillLanes) (w : Fin 32 → Int) : FillLanes :=
  { delta := fun k => s.delta k + w k
    maxv := fun k => max (s.maxv k) (s.delta k + w k)
    offset := s.offset }

/-- `_fill_update_offset` (`gaba.c:1464`–`1469`): move the centre-lane
small delta into the 64-bit offset, rebasing `delta` and `max`. -/
def fill_update_offset (s : FillLanes) : FillLanes :=
  let cd := s.delta ⟨16, by decide⟩
  { delta := fun k => s.delta k - cd
    maxv := fun k => s.maxv k - cd
    offset := s.offset + cd }

/-- One block of `fill_bulk_block` (`gaba.c:1570`–`1615`): a sequence of
relaxation steps followed by the offset normalisation.  Partially filled
cap blocks (`fill_cap_seq_bounded`, `gaba.c:1687`–`1767`) are covered by
allowing step lists of any length. -/
def fill_block_lanes (s : FillLanes) (ws : List (Fin 32 → Int)) : FillLanes :=
  fill_update_offset (ws.foldl fill_update_delta s)

/-- A whole fill: the blocks appended between two tail creations. -/
def fill_blocks_lanes (s : FillLanes)
    (blocks : List (List (Fin 32 → Int))) : FillLanes :=
  blocks.foldl fill_block_lanes s

/-- The `max` a tail records for a block state (`fill_create_tail`,
`gaba.c:1245`–`1258`): lane maximum of `md + sd.max` plus the offset. -/
def tail_max_of (md : Fin 32 → Int) (s : FillLanes) : Int :=
  hmax32 (fun k => md k + s.maxv k) + s.offset

/-- The root lane state (`gaba_init_fill_phantom`, `gaba.c:4156`–`4172`):
`sd.delta = sd.max` from `gaba_init_create_small_delta`, offset zero. -/
def root_lanes : FillLanes :=
  { delta := gaba_init_create_small_delta_lane
    maxv := gaba_init_create_small_delta_lane
    offset := 0 }

/-! ## Traceback: the lane-sanity test and the null decision -/

/-- `(uint32_t)q` for an `int32_t` value `q`. -/
def uint32_cast (q : Int) : Nat := (q % 4294967296).toNat

/-- The per-fragment sanity test of the traceback
(`trace_forward_generate_alignment`, `gaba.c:3086`, and
`trace_reverse_generate_alignment`, `gaba.c:3117`):
`(uint32_t)self->w.l.q >= 32` aborts the walk.  The literal bound is the
constant `32`, independent of the configured bandwidth. -/
def trace_q_abort (q : Int) : Bool := decide (32 ≤ uint32_cast q)

/-- A generate-alignment walk fails (`return -1`) exactly when the
reconstructed lane index after some fragment trips `trace_q_abort`
(`gaba.c:3072`–`3094`); `qs` lists those per-fragment lane indices. -/
def trace_generate_alignment_fails (qs : List Int) : Bool :=
  qs.any trace_q_abort

/-- The null-return decision of `gaba_dp_trace` (`gaba.c:3497`–`3505`):
null exactly when the forward or the reverse walk fails. -/
def gaba_dp_trace_returns_null (fwqs rvqs : List Int) : Bool :=
  trace_generate_alignment_fails fwqs || trace_generate_alignment_fails rvqs

/-- The spec-side predicate of claim C3: the lane index escapes the band
interval `[0, bw)`. -/
def escapes_band (bw : Nat) (q : Int) : Prop := q < 0 ∨ (bw : Int) ≤ q

instance (bw : Nat) (q : Int) : Decidable (escapes_band bw q) := by
  unfold escapes_band; infer_instance

/-! ## Traceback: the stepwise walk and the path/section bookkeeping -/

/-- The writer-work state of a traceback walk
(`struct gaba_writer_work_s`, `gaba.c:404`–`441`, restricted to the
fields of the path/section invariant): the emitted path bits (most
recent first), the current indices `aidx`/`bidx`, the section base
indices `asidx`/`bsidx`, and the pushed `(alen, blen)` records. -/
structure TraceWalkState where
  path : List Bool
  aidx : Int
  bidx : Int
  asidx : Int
  bsidx : Int
  secs : List (Int × Int)
  deriving Repr, DecidableEq

/-- Length of the most recent run of bits equal to `b` at the head of
the emitted path (`tzcnt(path_array)` resp. `tzcnt(~path_array)` in
`trace_forward_push`, `gaba.c:2905`–`2909`). -/
def trailingCount (b : Bool) : List Bool → Nat
  | [] => 0
  | x :: xs => if x = b then trailingCount b xs + 1 else 0

/-- One operation of the stepwise (cap/tail) traceback walk. -/
inductive TraceOp where
  | stepH
  | stepV
  | push
  | loadA (len : Int)
  | loadB (len : Int)
  deriving Repr, DecidableEq

/-- Stepwise traceback semantics.

* `stepH` — `_trace_forward_h_update_path_q` (`gaba.c:2641`–`2646`)
  emits a `0` bit while `_trace_tail_h_update_index` (`gaba.c:2616`)
  decrements `aidx`; gated by the index test (`gaba.c:2597`), which
  breaks before `aidx` would underflow.
* `stepV` — `_trace_forward_v_update_path_q` (`gaba.c:2647`–`2652`)
  emits a `1` bit while `bidx` is decremented (`gaba.c:2611`); a
  diagonal step is the composition of one `stepV` and one `stepH`
  (`_trace_forward_diag_loop`, `gaba.c:2716`–`2740`).
* `push` — `trace_forward_push` (`gaba.c:2893`–`2944`): compute the
  boundary adjustment `adj` (moving a trailing gap run across the
  boundary when exactly one index hit zero), record
  `(asidx - idx', bsidx - idx')` and set the base indices to the
  adjusted indices.
* `loadA`/`loadB` — `trace_load_section_a`/`_b` (`gaba.c:2288`–`2342`):
  reload the next section's length once the index is exhausted; the
  loop structure of `trace_forward_generate_alignment`
  (`gaba.c:3072`–`3090`) runs them right after a push, so the base
  index equals the exhausted index there. -/
def traceStep (s : TraceWalkState) : TraceOp → Option TraceWalkState
  | TraceOp.stepH =>
      if 1 ≤ s.aidx then
        some { s with path := false :: s.path, aidx := s.aidx - 1 }
      else none
  | TraceOp.stepV =>
      if 1 ≤ s.bidx then
        some { s with path := true :: s.path, bidx := s.bidx - 1 }
      else none
  | TraceOp.push =>
      let adjA : Int :=
        if s.aidx ≠ 0 ∧ s.bidx = 0 then (trailingCount false s.path : Int)
        else 0
      let adjB : Int :=
        if s.bidx ≠ 0 ∧ s.aidx = 0 then (trailingCount true s.path : Int) - 1
        else 0
      let ia := min (s.aidx + adjA) s.asidx
      let ib := min (s.bidx + adjB) s.bsidx
      some { s with
        secs := (s.asidx - ia, s.bsidx - ib) :: s.secs
        asidx := ia
        bsidx := ib }
  | TraceOp.loadA len =>
      if s.aidx = 0 ∧ s.asidx = 0 ∧ 0 ≤ len then
        some { s with aidx := len, asidx := len }
      else none
  | TraceOp.loadB len =>
      if s.bidx = 0 ∧ s.bsidx = 0 ∧ 0 ≤ len then
        some { s with bidx := len, bsidx := len }
      else none

/-- Run a list of walk operations. -/
def traceRun (s : TraceWalkState) : List TraceOp → Option TraceWalkState
  | [] => some s
  | op :: ops => (traceStep s op).bind fun s1 => traceRun s1 ops

/-- Number of `0` (horizontal) bits of a path. -/
def pathZeros (l : List Bool) : Nat := l.countP (fun b => b = false)

/-- Number of `1` (vertical) bits of a path. -/
def pathOnes (l : List Bool) : Nat := l.countP (fun b => b = true)

/-- Sum of the `alen` components of walk section records. -/
def secsSumA (secs : List (Int × Int)) : Int := (secs.map Prod.fst).sum

/-- Sum of the `blen` components of walk section records. -/
def secsSumB (secs : List (Int × Int)) : Int := (secs.map Prod.snd).sum

/-! ## Traceback: the root-trace-with-seed slice of `gaba_dp_trace` -/

/-- `struct gaba_path_section_s` (spec section 6; 32 bytes). -/
structure PathSection where
  aid : Nat
  bid : Nat
  apos : Nat
  bpos : Nat
  alen : Nat
  blen : Nat
  ppos : Nat
  deriving Repr, DecidableEq

/-- The fields of `struct gaba_alignment_s` relevant to the path/section
invariant: the score, the path bitstream (of length `path->len`), and
the section array. -/
structure GabaAlignment where
  score : Int
  pathBits : List Bool
  secs : List PathSection
  deriving Repr, DecidableEq

/-- Sum of `alen` over an alignment's section array. -/
def alnSumAlen (secs : List PathSection) : Nat :=
  (secs.map PathSection.alen).sum

/-- Sum of `blen` over an alignment's section array. -/
def alnSumBlen (secs : List PathSection) : Nat :=
  (secs.map PathSection.blen).sum

/-- The path/section invariant claimed for every alignment record. -/
def pathSectionInvariant (a : GabaAlignment) : Prop :=
  pathZeros a.pathBits = alnSumAlen a.secs ∧
  pathOnes a.pathBits = alnSumBlen a.secs

instance (a : GabaAlignment) : Decidable (pathSectionInvariant a) := by
  unfold pathSectionInvariant; infer_instance

/-- `leaf_search` (`gaba.c:2222`–`2252`) restricted to tails whose block
count `(tail->p - 1) >> BLK_BASE` is negative: the backward scan is
skipped and `leaf_save_phantom_coordinates` (`gaba.c:2203`–`2217`)
reports `p = -1`.  Other tails need the block journal and map to
`none`. -/
def leaf_search_phantom_p (tailp : Int) : Option Int :=
  if (tailp - 1) / 32 < 0 then some (-1) else none

/-- `trace_forward_generate_alignment` / `trace_reverse_generate_alignment`
(`gaba.c:3064`–`3125`) for walks whose initial
`psum = tail->psum - tail->p + leaf->p` (`trace_init_work`,
`gaba.c:3040`) is already negative: the walk loop never runs and the
empty path and section output is returned; walks that enter the loop
need the mask journal and map to `none`. -/
def trace_generate_alignment_empty (t : JointTail) (leafp : Int) :
    Option (List Bool × List PathSection) :=
  if t.psum - t.p + leafp < 0 then some ([], []) else none

/-- The seed path written by `trace_refine_alignment`
(`gaba.c:3403`–`3414`): `2*k` bits of the `0x55555555` pattern, i.e. `k`
diagonal steps, least-significant (`1`) bit first. -/
def seed_path_bits (k : Nat) : List Bool :=
  (List.range k).flatMap fun _ => [true, false]

/-- `trace_cat_section` (`gaba.c:3227`–`3289`) at the list level: append
`src`'s records after `dst`'s, merging the first of `src` into the last
of `dst` when both are non-empty and the head of `src` starts
mid-section (`sh->apos != 0 && sh->bpos != 0`, `gaba.c:3261`–`3273`). -/
def trace_cat_section (dst src : List PathSection) : List PathSection :=
  match dst.getLast?, src with
  | some d, s :: srest =>
      if s.apos ≠ 0 ∧ s.bpos ≠ 0 then
        dst.dropLast ++
          ({ d with alen := d.alen + s.alen, blen := d.blen + s.blen } :: srest)
      else dst ++ src
  | _, _ => dst ++ src

/-- The eight status values expressible as the bitwise-or of claim C1's
constituents (`UPDATE_A`? `UPDATE_B`? `TERM`? with `CONT = 0` when none
hold). -/
def claimStatusValues : Finset Nat := {0, 1, 2, 3, 512, 513, 514, 515}

/-- An allocation request larger than twice the initial region. -/
def c5Request : Nat := 2 * MEM_INIT_SIZE + 1

/-- `gaba_dp_malloc` on a fresh DP context with the oversized request. -/
def c5Result : DpStack × Nat := gaba_dp_malloc gaba_dp_init_stack c5Request

/-- `gaba_dp_trace` (`gaba.c:3466`–`3509`) sliced to a root-tail trace
(`fw = rv = NULL`, both substituted by the root tail) with a caller
seed `(sec, slen, k)`: both walks terminate immediately with empty
output, and `trace_refine_alignment` (`gaba.c:3389`–`3461`) concatenates
the reverse output, the seed sections and path, and the forward output
into the returned record, with
`score = fw->max + rv->max + m*k` (`gaba.c:3333`). -/
def gaba_dp_trace_root_seed (m : Int) (seedSecs : List PathSection)
    (k : Nat) : Option GabaAlignment :=
  match leaf_search_phantom_p root_tail.p with
  | none => none
  | some leafp =>
    match trace_generate_alignment_empty root_tail leafp,
          trace_generate_alignment_empty root_tail leafp with
    | some (fwPath, fwSecs), some (rvPath, rvSecs) =>
        let secs1 := trace_cat_section rvSecs seedSecs
        let secs2 := trace_cat_section secs1 fwSecs
        some { score := root_tail.max + root_tail.max + m * (k : Int)
               pathBits := rvPath ++ seed_path_bits k ++ fwPath
               secs := secs2 }
    | _, _ => none

/-! ## Helper lemmas -/

theorem i8_eq_self (x : Int) (h1 : -128 ≤ x) (h2 : x ≤ 127) : i8 x = x := by
  unfold i8; omega

theorem foldl_max_le_foldl_max {α : Type} (l : List α) (f g : α → Int)
    (a b : Int) (hab : a ≤ b) (h : ∀ k, f k ≤ g k) :
    l.foldl (fun x k => max x (f k)) a ≤ l.foldl (fun x k => max x (g k)) b := by
  induction l generalizing a b with
  | nil => exact hab
  | cons k l ih => exact ih _ _ (max_le_max hab (h k)) ..

theorem foldl_max_add {α : Type} (l : List α) (g : α → Int) (a c : Int) :
    l.foldl (fun x k => max x (g k + c)) (a + c) =
      l.foldl (fun x k => max x (g k)) a + c := by
  induction l generalizing a with
  | nil => rfl
  | cons k l ih =>
      simp only [List.foldl_cons]
      rw [max_add_add_right]
      exact ih _

theorem hmax32_mono (f g : Fin 32 → Int) (h : ∀ k, f k ≤ g k) :
    hmax32 f ≤ hmax32 g :=
  foldl_max_le_foldl_max _ f g _ _ (h _) h

theorem hmax32_add_const (f : Fin 32 → Int) (c : Int) :
    hmax32 (fun k => f k + c) = hmax32 f + c := by
  simpa [hmax32] using foldl_max_add (List.finRange 32) f (f ⟨0, by decide⟩) c

theorem foldl_update_delta_maxv_le (ws : List (Fin 32 → Int)) (s : FillLanes)
    (k : Fin 32) : s.maxv k ≤ (ws.foldl fill_update_delta s).maxv k := by
  induction ws generalizing s with
  | nil => exact le_refl _
  | cons w ws ih =>
      exact le_trans (le_max_left _ _) (ih (fill_update_delta s w))

theorem foldl_update_delta_offset (ws : List (Fin 32 → Int)) (s : FillLanes) :
    (ws.foldl fill_update_delta s).offset = s.offset := by
  induction ws generalizing s with
  | nil => rfl
  | cons w ws ih => exact ih (fill_update_delta s w)

theorem fill_block_lanes_lane_le (s : FillLanes) (ws : List (Fin 32 → Int))
    (k : Fin 32) :
    s.maxv k + s.offset ≤
      (fill_block_lanes s ws).maxv k + (fill_block_lanes s ws).offset := by
  unfold fill_block_lanes fill_update_offset
  have h1 := foldl_update_delta_maxv_le ws s k
  have h2 := foldl_update_delta_offset ws s
  dsimp only
  omega

theorem fill_blocks_lanes_lane_le (blocks : List (List (Fin 32 → Int)))
    (s : FillLanes) (k : Fin 32) :
    s.maxv k + s.offset ≤
      (fill_blocks_lanes s blocks).maxv k +
        (fill_blocks_lanes s blocks).offset := by
  induction blocks generalizing s with
  | nil => exact le_refl _
  | cons b bs ih =>
      exact le_trans (fill_block_lanes_lane_le s b k) (ih (fill_block_lanes s b))

theorem tail_max_of_eq_hmax (md : Fin 32 → Int) (s : FillLanes) :
    tail_max_of md s = hmax32 (fun k => md k + s.maxv k + s.offset) := by
  unfold tail_max_of
  rw [← hmax32_add_const (fun k => md k + s.maxv k) s.offset]

theorem claim_status_or_mem (a b t : Bool) :
    ((cond a UPDATE_A 0) ||| (cond b UPDATE_B 0) ||| (cond t TERM 0)) ∈
      claimStatusValues := by
  cases a <;> cases b <;> cases t <;> decide

/-! ## Claim theorems -/

/-- C10: `gaba_init` with a null params pointer returns null, and with all
four scores zero it substitutes the defaults `m = x = gi = ge = 1`,
`xdrop = 50`, `filter_thresh = 0` before the constraint check and
succeeds, for both gap models. -/
theorem gaba_init_null_params_and_zero_defaults :
    gaba_init Model.linear none = none ∧
    gaba_init Model.affine none = none ∧
    gaba_init_restore_default_params ⟨0, 0, 0, 0, 0, 0, 0, 0⟩ =
      ⟨1, 1, 1, 1, 50, 0, 0, 0⟩ ∧
    (gaba_init Model.linear (some ⟨0, 0, 0, 0, 0, 0, 0, 0⟩)).isSome = true ∧
    (gaba_init Model.affine (some ⟨0, 0, 0, 0, 0, 0, 0, 0⟩)).isSome = true := by
  refine ⟨rfl, rfl, by decide, by decide, by decide⟩

/-- C2 counterexample: the affine parameter set `m = 1, x = 1, gi = 4,
ge = 4` satisfies the claim's constraints (`m - 2(gi+ge) = -15 ≤ 31`,
`ge ≤ gi`, `gi + ge = 8 ≥ -7`), yet `gaba_init` rejects it and returns
null (the code requires `gi + ge ≤ 7` and `m + 2(gi+ge) ≤ 31`). -/
theorem gaba_init_claim_constraints_counterexample :
    claimScoreConstraints Model.affine ⟨1, 1, 4, 4, 50, 0, 0, 0⟩ ∧
    gaba_init Model.affine (some ⟨1, 1, 4, 4, 50, 0, 0, 0⟩) = none := by
  constructor
  · decide
  · decide

/-- C2 (amended): for `int8_t` parameters, `gaba_init` returns an engine
exactly when, after default substitution, the scores satisfy
`m + 2(gi+ge) ≤ 255 ∧ gi+ge ≥ 0` (linear) resp.
`m + 2(gi+ge) ≤ 31 ∧ ge ≤ gi ∧ gi+ge ≤ 7` (affine), host allocation
assumed to succeed. -/
theorem gaba_init_isSome_iff_code_constraints (model : Model) (p : GabaParams)
    (hm : -127 ≤ p.m ∧ p.m ≤ 127) (hgi : -127 ≤ p.gi ∧ p.gi ≤ 127)
    (hge : -127 ≤ p.ge ∧ p.ge ≤ 127) :
    (gaba_init model (some p)).isSome = true ↔
      codeScoreConstraints model (gaba_init_restore_default_params p) := by
  have hq :
      (-127 ≤ (gaba_init_restore_default_params p).m ∧
        (gaba_init_restore_default_params p).m ≤ 127) ∧
      (-127 ≤ (gaba_init_restore_default_params p).gi ∧
        (gaba_init_restore_default_params p).gi ≤ 127) ∧
      (-127 ≤ (gaba_init_restore_default_params p).ge ∧
        (gaba_init_restore_default_params p).ge ≤ 127) := by
    by_cases h : p.m = 0 ∧ p.x = 0 ∧ p.gi = 0 ∧ p.ge = 0 <;>
      simp [gaba_init_restore_default_params, h] <;> omega
  obtain ⟨hm', hgi', hge'⟩ := hq
  simp only [gaba_init]
  generalize gaba_init_restore_default_params p = q at hm' hgi' hge' ⊢
  by_cases hc : gaba_init_check_score model q = true
  · rw [if_pos hc]
    simp only [Option.isSome_none, Bool.false_eq_true, false_iff]
    cases model <;>
      simp only [gaba_init_check_score, i8, Bool.or_eq_true,
        decide_eq_true_eq, codeScoreConstraints] at hc ⊢ <;>
      omega
  · rw [if_neg hc]
    simp only [Option.isSome_some, true_iff]
    cases model <;>
      simp only [gaba_init_check_score, i8, Bool.or_eq_true,
        decide_eq_true_eq, codeScoreConstraints] at hc ⊢ <;>
      omega

/-- Witness for the amended C2 theorem at the unittest affine parameters
`(m, x, gi, ge) = (2, 3, 5, 1)`. -/
theorem gaba_init_isSome_iff_code_constraints_witness :
    ((-127 : Int) ≤ 2 ∧ (2 : Int) ≤ 127) ∧
    ((-127 : Int) ≤ 5 ∧ (5 : Int) ≤ 127) ∧
    ((-127 : Int) ≤ 1 ∧ (1 : Int) ≤ 127) ∧
    ((gaba_init Model.affine (some ⟨2, 3, 5, 1, 100, 0, 0, 0⟩)).isSome = true ↔
      codeScoreConstraints Model.affine
        (gaba_init_restore_default_params ⟨2, 3, 5, 1, 100, 0, 0, 0⟩)) :=
  ⟨by decide, by decide, by decide,
    gaba_init_isSome_iff_code_constraints Model.affine
      ⟨2, 3, 5, 1, 100, 0, 0, 0⟩ (by decide) (by decide) (by decide)⟩

/-- C5 counterexample: on a fresh DP context, a request of
`2 * MEM_INIT_SIZE + 1` bytes does not fit; the fresh region the code
links has size `2 * MEM_INIT_SIZE` — not `max(n, 2 * current)` — and the
returned pointer does not have `n` usable bytes before the region
limit. -/
theorem gaba_dp_malloc_oversized_counterexample :
    c5Result.1.curr_size = 536870912 ∧
    max c5Request (2 * gaba_dp_init_stack.curr_size) = 536870913 ∧
    ¬(c5Result.2 + c5Request ≤ c5Result.1.stack_end) := by
  refine ⟨by decide, by decide, by decide⟩

/-- C5 (amended): when the request does not fit the current region and no
region is chained, the allocator links a fresh region of exactly twice
the current size (the request size is ignored), places the pointer right
after the 32-byte region header, and the pointer spans the rounded
request within the usable part of the new region exactly when
`32 + roundup(n, 32) + 2048 ≤ 2 * current`. -/
theorem gaba_dp_malloc_fresh_region (s : DpStack) (n : Nat)
    (hfit : s.stack_end - s.stack_top < roundup n MEM_ALIGN_SIZE)
    (hchain : s.nexts = []) :
    (gaba_dp_malloc s n).1.curr_size = 2 * s.curr_size ∧
    (gaba_dp_malloc s n).2 = MEM_BLOCK_HEADER ∧
    (gaba_dp_malloc s n).1.stack_top =
      MEM_BLOCK_HEADER + roundup n MEM_ALIGN_SIZE ∧
    (gaba_dp_malloc s n).1.stack_end = 2 * s.curr_size - MEM_MARGIN_SIZE ∧
    ((gaba_dp_malloc s n).2 + roundup n MEM_ALIGN_SIZE ≤
        (gaba_dp_malloc s n).1.stack_end ↔
      MEM_BLOCK_HEADER + roundup n MEM_ALIGN_SIZE + MEM_MARGIN_SIZE ≤
        2 * s.curr_size) := by
  simp only [gaba_dp_malloc, if_pos hfit, gaba_dp_add_stack, hchain]
  refine ⟨by omega, by trivial, by trivial, by omega, ?_⟩
  unfold MEM_BLOCK_HEADER MEM_MARGIN_SIZE
  omega

/-- Witness for the amended C5 theorem: region of 4096 bytes with 48 free
bytes cannot fit a 100-byte request. -/
theorem gaba_dp_malloc_fresh_region_witness :
    ((⟨4096, [], 2000, 2048⟩ : DpStack).stack_end -
        (⟨4096, [], 2000, 2048⟩ : DpStack).stack_top <
      roundup 100 MEM_ALIGN_SIZE) ∧
    (⟨4096, [], 2000, 2048⟩ : DpStack).nexts = [] ∧
    ((gaba_dp_malloc ⟨4096, [], 2000, 2048⟩ 100).1.curr_size = 2 * 4096 ∧
     (gaba_dp_malloc ⟨4096, [], 2000, 2048⟩ 100).2 = MEM_BLOCK_HEADER ∧
     (gaba_dp_malloc ⟨4096, [], 2000, 2048⟩ 100).1.stack_top =
       MEM_BLOCK_HEADER + roundup 100 MEM_ALIGN_SIZE ∧
     (gaba_dp_malloc ⟨4096, [], 2000, 2048⟩ 100).1.stack_end =
       2 * 4096 - MEM_MARGIN_SIZE ∧
     ((gaba_dp_malloc ⟨4096, [], 2000, 2048⟩ 100).2 +
         roundup 100 MEM_ALIGN_SIZE ≤
        (gaba_dp_malloc ⟨4096, [], 2000, 2048⟩ 100).1.stack_end ↔
       MEM_BLOCK_HEADER + roundup 100 MEM_ALIGN_SIZE + MEM_MARGIN_SIZE ≤
         2 * 4096)) :=
  ⟨by decide, rfl,
    gaba_dp_malloc_fresh_region ⟨4096, [], 2000, 2048⟩ 100 (by decide) rfl⟩

/-- C4 counterexample: `c4CharVec` contains a central-diagonal run of
exactly `tf = 3` consecutive matches (and no other matched lanes), yet
`fill_gapless_filter` vetoes the fill with `TERM`, because the code
requires the matched-lane count to strictly exceed `tf`. -/
theorem fill_gapless_filter_run_counterexample :
    specRunExists c4CharVec 3 = true ∧
    fill_gapless_filter c4CharVec 3 = TERM ∧ TERM ≠ CONT := by
  refine ⟨by decide, by decide, by decide⟩

/-- C4 (amended): the filter returns `TERM` exactly when the number of
window lanes matching on one of the three central diagonals is at most
`tf`; in particular a diagonal run of **more than** `tf` consecutive
matches always yields `CONT`, but a run of exactly `tf` need not. -/
theorem fill_gapless_filter_term_iff (w : Fin 32 → Nat) (tf : Nat) :
    (fill_gapless_filter w tf = TERM ↔ filt_match_count w ≤ tf) ∧
    (∀ len : Nat, tf < len → specRunExists w len = true →
      fill_gapless_filter w tf = CONT) := by
  constructor
  · unfold fill_gapless_filter
    split
    · rename_i h
      simp only [CONT, TERM]
      omega
    · rename_i h
      simp only [TERM, true_iff]
      omega
  · intro len hlen hrun
    have hcnt : len ≤ filt_match_count w := by
      simp only [specRunExists, List.any_eq_true, List.mem_range,
        List.all_eq_true, Bool.and_eq_true, decide_eq_true_eq] at hrun
      obtain ⟨d, _, i, _, hle, hall⟩ := hrun
      calc len = (Finset.Ico i (i + len)).card := by simp
        _ ≤ filt_match_count w := by
            apply Finset.card_le_card
            intro j hj
            rw [Finset.mem_Ico] at hj
            simp only [filt_match_count, Finset.mem_filter, Finset.mem_range]
            refine ⟨by omega, ?_⟩
            have hd := hall (j - i) (by omega)
            have hij : i + (j - i) = j := by omega
            rw [hij] at hd
            match d with
            | 0 =>
                simp only [specDiagMatch] at hd
                simp [filt_lane_match, hd]
            | 1 =>
                simp only [specDiagMatch] at hd
                simp [filt_lane_match, hd]
            | (_ + 2) =>
                simp only [specDiagMatch] at hd
                simp [filt_lane_match, hd]
    unfold fill_gapless_filter
    rw [if_pos (by omega)]

/-- Witness for the amended C4 theorem at `c4CharVec` with `tf = 2`:
the run of three matches exceeds the threshold, so the fill passes. -/
theorem fill_gapless_filter_term_iff_witness :
    2 < 3 ∧ specRunExists c4CharVec 3 = true ∧
    fill_gapless_filter c4CharVec 2 = CONT :=
  ⟨by decide, by decide,
    (fill_gapless_filter_term_iff c4CharVec 2).2 3 (by decide) (by decide)⟩

/-- C1 counterexample: `gaba_dp_fill_root` on a fresh default-engine
context with two length-1 sections returns a handle whose status is
`0x103 = UPDATE | UPDATE_A | UPDATE_B`; no bitwise-or of the claim's
constituents (`UPDATE_A`, `UPDATE_B`, `TERM`, `CONT`) yields this value,
since the claim's enumeration never sets the `UPDATE = 0x100` bit. -/
theorem fill_root_status_update_bit_counterexample :
    (gaba_dp_fill_root_small 1 1 4 6 0 0).map JointTail.stat = some 259 ∧
    259 ∉ claimStatusValues := by
  refine ⟨by decide, by decide⟩

/-- C1 (amended): the status stored by `fill_create_tail` is the bitwise
or of `UPDATE_A` (exactly when `aridx` reached 0), `UPDATE_B` (exactly
when `bridx` reached 0), and the fill-loop status, which is one of
`CONT = 0`, `UPDATE = 0x100` (section consumed inside the init fetch or
mid-block), or `TERM = 0x200` (termination test fired). -/
theorem fill_create_tail_status_bits (prev : JointTail) (blk : BlockState)
    (alen blen : Int) (aid bid : Nat) (p : Int) (stat : Nat)
    (h : stat = CONT ∨ stat = UPDATE ∨ stat = TERM) :
    ((fill_create_tail prev blk alen blen aid bid p stat).stat &&& UPDATE_A =
        UPDATE_A ↔ blk.aridx = 0) ∧
    ((fill_create_tail prev blk alen blen aid bid p stat).stat &&& UPDATE_B =
        UPDATE_B ↔ blk.bridx = 0) ∧
    ((fill_create_tail prev blk alen blen aid bid p stat).stat &&& TERM =
        TERM ↔ stat = TERM) ∧
    ((fill_create_tail prev blk alen blen aid bid p stat).stat &&& UPDATE =
        UPDATE ↔ stat = UPDATE) ∧
    (fill_create_tail prev blk alen blen aid bid p stat).stat =
      stat + (if blk.aridx = 0 then UPDATE_A else 0) +
        (if blk.bridx = 0 then UPDATE_B else 0) := by
  rcases h with h | h | h <;> subst h <;>
    by_cases ha : blk.aridx = 0 <;> by_cases hb : blk.bridx = 0 <;>
      simp [fill_create_tail, ha, hb, CONT, UPDATE, TERM, UPDATE_A,
        UPDATE_B] <;> decide

/-- Witness for the amended C1 theorem with loop status `UPDATE` on the
root block (both indices zero). -/
theorem fill_create_tail_status_bits_witness :
    (UPDATE = CONT ∨ UPDATE = UPDATE ∨ UPDATE = TERM) ∧
    (((fill_create_tail root_tail root_block 3 4 1 2 5 UPDATE).stat &&&
        UPDATE_A = UPDATE_A ↔ root_block.aridx = 0) ∧
     ((fill_create_tail root_tail root_block 3 4 1 2 5 UPDATE).stat &&&
        UPDATE_B = UPDATE_B ↔ root_block.bridx = 0) ∧
     ((fill_create_tail root_tail root_block 3 4 1 2 5 UPDATE).stat &&&
        TERM = TERM ↔ UPDATE = TERM) ∧
     ((fill_create_tail root_tail root_block 3 4 1 2 5 UPDATE).stat &&&
        UPDATE = UPDATE ↔ UPDATE = UPDATE) ∧
     (fill_create_tail root_tail root_block 3 4 1 2 5 UPDATE).stat =
       UPDATE + (if root_block.aridx = 0 then UPDATE_A else 0) +
         (if root_block.bridx = 0 then UPDATE_B else 0)) :=
  ⟨Or.inr (Or.inl rfl),
    fill_create_tail_status_bits root_tail root_block 3 4 1 2 5 UPDATE
      (Or.inr (Or.inl rfl))⟩

/-- C6 counterexample: the first fill of a pair with short sections
(lengths 2 and 3 from the root) produces a tail with `ssum = 1`,
`p = 0` but `psum = -27 < 0`, violating `psum ≥ p` even though
`ssum ≥ 1`. -/
theorem fill_root_psum_counterexample :
    (gaba_dp_fill_root_small 2 3 4 6 0 0).map
        (fun t => (t.ssum, t.psum, t.p)) = some (1, -27, 0) ∧
    ¬((-27 : Int) ≥ 0) := by
  refine ⟨by decide, by decide⟩

/-- C6 (amended): every tail created by `fill_create_tail` from a
non-negative antidiagonal count has `ssum ≥ 1` and `p ≥ 0`, and
`psum ≥ p` holds as soon as `psum` itself is non-negative (i.e. once the
band has fully initialized); while `psum < 0` the inequality
`psum ≥ p` can fail. -/
theorem fill_create_tail_p_psum (prev : JointTail) (blk : BlockState)
    (alen blen : Int) (aid bid : Nat) (p : Int) (stat : Nat) (hp : 0 ≤ p) :
    1 ≤ (fill_create_tail prev blk alen blen aid bid p stat).ssum ∧
    0 ≤ (fill_create_tail prev blk alen blen aid bid p stat).p ∧
    (0 ≤ (fill_create_tail prev blk alen blen aid bid p stat).psum →
      (fill_create_tail prev blk alen blen aid bid p stat).p ≤
        (fill_create_tail prev blk alen blen aid bid p stat).psum) := by
  by_cases h : prev.psum < 0 <;> simp [fill_create_tail, h] <;> omega

/-- Witness for the amended C6 theorem at the root with `p = 5`. -/
theorem fill_create_tail_p_psum_witness :
    (0 : Int) ≤ 5 ∧
    (1 ≤ (fill_create_tail root_tail root_block 3 4 1 2 5 CONT).ssum ∧
     0 ≤ (fill_create_tail root_tail root_block 3 4 1 2 5 CONT).p ∧
     (0 ≤ (fill_create_tail root_tail root_block 3 4 1 2 5 CONT).psum →
       (fill_create_tail root_tail root_block 3 4 1 2 5 CONT).p ≤
         (fill_create_tail root_tail root_block 3 4 1 2 5 CONT).psum)) :=
  ⟨by decide,
    fill_create_tail_p_psum root_tail root_block 3 4 1 2 5 CONT (by decide)⟩

/-- C9 counterexample: a fill of two zero-length sections at the root
keeps `psum` and increments `ssum`, but the new tail does **not** agree
with the previous tail in the remaining fields: its status becomes
`0x103` (the root's was `CONT = 0`) and its section ids become the new
sections' ids (the root's were the sentinels `0xfffc = 65532` and
`0xfffd = 65533`). -/
theorem fill_root_empty_sections_counterexample :
    (gaba_dp_fill_root_small 0 0 7 9 0 0).map
        (fun t => (t.psum, t.ssum, t.stat, t.aid, t.bid)) =
      some (-31, 1, 259, 7, 9) ∧
    root_tail.stat = 0 ∧ root_tail.aid = 65532 ∧ root_tail.bid = 65533 := by
  refine ⟨by decide, by decide, by decide, by decide⟩

/-- C9 (amended): a fill of two zero-length sections while the band is
still initializing (`psum < 0`, previous sections fully consumed)
returns a handle with status `UPDATE | UPDATE_A | UPDATE_B = 0x103`
(never `TERM`), `psum` and the running `max` unchanged, `p = 0`, and
`ssum` incremented; the section fields describe the new empty sections
rather than copying the previous tail. -/
theorem fill_small_empty_sections (prev : JointTail) (pblk : BlockState)
    (aid bid : Nat) (hpsum : prev.psum < 0) (hap : prev.apos = 0)
    (hbp : prev.bpos = 0)
    (hmx : prev.max =
      hmax32 (fun k => pblk.md k + pblk.smax k) + pblk.offset) :
    fill_small prev pblk 0 0 aid bid =
      some { psum := prev.psum, p := 0, ssum := prev.ssum + 1,
             max := prev.max, stat := 259, rem_len := 0, apos := 0,
             bpos := 0, alen := 0, blen := 0, aid := aid, bid := bid } ∧
    (259 : Nat) &&& TERM = 0 := by
  refine ⟨?_, by decide⟩
  have hfetch : fill_init_fetch prev.psum 0 0 = ⟨0, 0, 0, UPDATE⟩ := by
    unfold fill_init_fetch
    simp only [sub_zero, JointBlockResult.mk.injEq]
    refine ⟨by omega, by omega, by omega, ?_⟩
    split
    · rfl
    · omega
  unfold fill_small
  rw [hap, hbp]
  simp only [sub_zero, hfetch]
  split_ifs with h1 h2 h3
  · exact absurd h1 (by omega)
  · exact absurd h2 (by omega)
  · exact absurd h3 (by decide)
  · unfold fill_create_tail
    simp only [Option.some.injEq, JointTail.mk.injEq]
    and_intros <;>
      first
        | trivial
        | exact hmx.symm
        | (rw [if_pos hpsum]; omega)
        | decide
        | omega

/-- Witness for the amended C9 theorem at the root tail of the
default-parameter engine. -/
theorem fill_small_empty_sections_witness :
    root_tail.psum < 0 ∧ root_tail.apos = 0 ∧ root_tail.bpos = 0 ∧
    root_tail.max =
      hmax32 (fun k => root_block.md k + root_block.smax k) +
        root_block.offset ∧
    (fill_small root_tail root_block 0 0 11 12 =
      some { psum := root_tail.psum, p := 0, ssum := root_tail.ssum + 1,
             max := root_tail.max, stat := 259, rem_len := 0, apos := 0,
             bpos := 0, alen := 0, blen := 0, aid := 11, bid := 12 } ∧
     (259 : Nat) &&& TERM = 0) :=
  ⟨by decide, by decide, by decide, by decide,
    fill_small_empty_sections root_tail root_block 11 12 (by decide)
      (by decide) (by decide) (by decide)⟩

/-- C7: the tail `max` recomputed by `fill_create_tail` from the running
small-max lanes, the middle-delta profile and the offset is monotone
non-decreasing along any sequence of fill blocks (each block being any
number of relaxation steps followed by the offset normalisation), and
the root tail's stored `max = 0` equals the recomputed value of the root
lane state, so the chain of tail maxima starting at the root is monotone
non-decreasing. -/
theorem tail_max_monotone_along_chain :
    (∀ (md : Fin 32 → Int) (s : FillLanes)
        (blocks : List (List (Fin 32 → Int))),
      tail_max_of md s ≤ tail_max_of md (fill_blocks_lanes s blocks)) ∧
    tail_max_of root_md root_lanes = 0 := by
  constructor
  · intro md s blocks
    rw [tail_max_of_eq_hmax, tail_max_of_eq_hmax]
    apply hmax32_mono
    intro k
    have h := fill_blocks_lanes_lane_le blocks s k
    omega
  · decide

/-- C3 counterexample: in the 16-lane configuration a reconstructed lane
index `q = 20` escapes the band interval `[0, 16)`, yet the traceback's
sanity check `(uint32_t)q >= 32` does not fire, so the trace does not
return null there. -/
theorem trace_q_band_escape_counterexample :
    escapes_band 16 20 ∧ trace_q_abort 20 = false ∧
    gaba_dp_trace_returns_null [20] [] = false := by
  refine ⟨by decide, by decide, by decide⟩

/-- C3 (amended): for `int32_t` lane indices, `gaba_dp_trace` returns
null exactly when some per-fragment reconstructed lane index of the
forward or reverse walk escapes `[0, 32)` — the fixed constant 32
(`BW_MAX`), not the configured bandwidth. -/
theorem gaba_dp_trace_null_iff_q_escapes_32 (fwqs rvqs : List Int)
    (h : ∀ q ∈ fwqs ++ rvqs, -(2 ^ 31) ≤ q ∧ q < 2 ^ 31) :
    (gaba_dp_trace_returns_null fwqs rvqs = true ↔
      ∃ q ∈ fwqs ++ rvqs, escapes_band 32 q) := by
  have key : ∀ q : Int, -(2 ^ 31) ≤ q → q < 2 ^ 31 →
      (trace_q_abort q = true ↔ escapes_band 32 q) := by
    intro q h1 h2
    simp only [trace_q_abort, uint32_cast, escapes_band, decide_eq_true_eq]
    omega
  simp only [gaba_dp_trace_returns_null, Bool.or_eq_true,
    trace_generate_alignment_fails, List.any_eq_true]
  constructor
  · rintro (⟨q, hq, hab⟩ | ⟨q, hq, hab⟩)
    · have hmem : q ∈ fwqs ++ rvqs := List.mem_append.mpr (Or.inl hq)
      exact ⟨q, hmem, (key q (h q hmem).1 (h q hmem).2).mp hab⟩
    · have hmem : q ∈ fwqs ++ rvqs := List.mem_append.mpr (Or.inr hq)
      exact ⟨q, hmem, (key q (h q hmem).1 (h q hmem).2).mp hab⟩
  · rintro ⟨q, hmem, hesc⟩
    have hab := (key q (h q hmem).1 (h q hmem).2).mpr hesc
    rcases List.mem_append.mp hmem with hq | hq
    · exact Or.inl ⟨q, hq, hab⟩
    · exact Or.inr ⟨q, hq, hab⟩

/-- Witness for the amended C3 theorem at concrete lane-index lists. -/
theorem gaba_dp_trace_null_iff_q_escapes_32_witness :
    (∀ q ∈ ([5, 40] : List Int) ++ ([-1] : List Int),
      -(2 ^ 31) ≤ q ∧ q < 2 ^ 31) ∧
    (gaba_dp_trace_returns_null [5, 40] [-1] = true ↔
      ∃ q ∈ ([5, 40] : List Int) ++ ([-1] : List Int), escapes_band 32 q) :=
  ⟨by decide, gaba_dp_trace_null_iff_q_escapes_32 [5, 40] [-1] (by decide)⟩

/-- Single-step conservation of the traceback walk: every operation
preserves `zeros + aidx - Σalen - asidx` and `ones + bidx - Σblen -
bsidx`. -/
theorem traceStep_conservation (s s1 : TraceWalkState) (op : TraceOp)
    (h : traceStep s op = some s1) :
    ((pathZeros s1.path : Int) + s1.aidx - secsSumA s1.secs - s1.asidx =
      (pathZeros s.path : Int) + s.aidx - secsSumA s.secs - s.asidx) ∧
    ((pathOnes s1.path : Int) + s1.bidx - secsSumB s1.secs - s1.bsidx =
      (pathOnes s.path : Int) + s.bidx - secsSumB s.secs - s.bsidx) := by
  cases op with
  | stepH =>
      simp only [traceStep] at h
      split at h
      · cases h
        simp only [pathZeros, pathOnes, List.countP_cons]
        constructor <;> simp <;> omega
      · cases h
  | stepV =>
      simp only [traceStep] at h
      split at h
      · cases h
        simp only [pathZeros, pathOnes, List.countP_cons]
        constructor <;> simp <;> omega
      · cases h
  | push =>
      simp only [traceStep] at h
      cases h
      simp only [secsSumA, secsSumB, List.map_cons, List.sum_cons]
      constructor <;> omega
  | loadA len =>
      simp only [traceStep] at h
      split at h
      · cases h
        rename_i hc
        obtain ⟨h1, h2, _⟩ := hc
        constructor <;> simp [h1, h2] <;> omega
      · cases h
  | loadB len =>
      simp only [traceStep] at h
      split at h
      · cases h
        rename_i hc
        obtain ⟨h1, h2, _⟩ := hc
        constructor <;> simp [h1, h2] <;> omega
      · cases h

/-- Run-level conservation for the traceback walk. -/
theorem traceRun_conservation (ops : List TraceOp) (s0 s1 : TraceWalkState)
    (h : traceRun s0 ops = some s1) :
    ((pathZeros s1.path : Int) + s1.aidx - secsSumA s1.secs - s1.asidx =
      (pathZeros s0.path : Int) + s0.aidx - secsSumA s0.secs - s0.asidx) ∧
    ((pathOnes s1.path : Int) + s1.bidx - secsSumB s1.secs - s1.bsidx =
      (pathOnes s0.path : Int) + s0.bidx - secsSumB s0.secs - s0.bsidx) := by
  induction ops generalizing s0 with
  | nil =>
      simp only [traceRun] at h
      cases h
      exact ⟨rfl, rfl⟩
  | cons op ops ih =>
      simp only [traceRun, Option.bind_eq_bind] at h
      rcases hstep : traceStep s0 op with _ | s2
      · rw [hstep] at h; cases h
      · rw [hstep, Option.some_bind] at h
        have h1 := traceStep_conservation s0 s2 op hstep
        have h2 := ih s2 h
        constructor <;> omega

/-- C8 (amended): along any stepwise traceback walk started on fresh
section bases, the number of `0` bits emitted equals the sum of `alen`
over the pushed section records and the number of `1` bits equals the
sum of `blen`, whenever the walk ends with its base indices equal to its
current indices (as after a final push at the origin); a caller-supplied
seed section list is concatenated into the final record unchecked, so
the record-level invariant additionally requires the seed to be
consistent. -/
theorem trace_walk_zeros_eq_alen_sum (ops : List TraceOp) (i0 j0 : Int)
    (s1 : TraceWalkState)
    (h : traceRun ⟨[], i0, j0, i0, j0, []⟩ ops = some s1)
    (hA : s1.asidx = s1.aidx) (hB : s1.bsidx = s1.bidx) :
    (pathZeros s1.path : Int) = secsSumA s1.secs ∧
    (pathOnes s1.path : Int) = secsSumB s1.secs := by
  have hc := traceRun_conservation ops ⟨[], i0, j0, i0, j0, []⟩ s1 h
  simp only [pathZeros, pathOnes, secsSumA, secsSumB, List.countP_nil,
    List.map_nil, List.sum_nil] at hc ⊢
  constructor <;> omega

/-- Witness for the amended C8 theorem: a walk consuming two A positions
and one B position in one section. -/
theorem trace_walk_zeros_eq_alen_sum_witness :
    traceRun ⟨[], 2, 1, 2, 1, []⟩
        [TraceOp.stepH, TraceOp.stepV, TraceOp.stepH, TraceOp.push] =
      some ⟨[false, true, false], 0, 0, 0, 0, [(2, 1)]⟩ ∧
    (⟨[false, true, false], 0, 0, 0, 0, [(2, 1)]⟩ : TraceWalkState).asidx =
      (⟨[false, true, false], 0, 0, 0, 0, [(2, 1)]⟩ : TraceWalkState).aidx ∧
    (⟨[false, true, false], 0, 0, 0, 0, [(2, 1)]⟩ : TraceWalkState).bsidx =
      (⟨[false, true, false], 0, 0, 0, 0, [(2, 1)]⟩ : TraceWalkState).bidx ∧
    ((pathZeros (⟨[false, true, false], 0, 0, 0, 0,
          [(2, 1)]⟩ : TraceWalkState).path : Int) =
        secsSumA (⟨[false, true, false], 0, 0, 0, 0,
          [(2, 1)]⟩ : TraceWalkState).secs ∧
      (pathOnes (⟨[false, true, false], 0, 0, 0, 0,
          [(2, 1)]⟩ : TraceWalkState).path : Int) =
        secsSumB (⟨[false, true, false], 0, 0, 0, 0,
          [(2, 1)]⟩ : TraceWalkState).secs) :=
  ⟨by decide, by decide, by decide,
    trace_walk_zeros_eq_alen_sum
      [TraceOp.stepH, TraceOp.stepV, TraceOp.stepH, TraceOp.push] 2 1
      ⟨[false, true, false], 0, 0, 0, 0, [(2, 1)]⟩ (by decide) (by decide)
      (by decide)⟩

/-- C8 counterexample: tracing the root tail with a caller seed whose
single section claims `alen = 7` while the seed path carries `k = 0`
diagonals returns an alignment record with an empty path and that
section copied verbatim, so the path has 0 zero-bits while the section
`alen` sum is 7 — the path/section invariant fails on a returned
record. -/
theorem trace_root_seed_invariant_counterexample :
    (gaba_dp_trace_root_seed 1 [⟨4, 5, 0, 0, 7, 0, 0⟩] 0).map
        (fun a => (pathZeros a.pathBits, alnSumAlen a.secs,
          pathOnes a.pathBits, alnSumBlen a.secs,
          decide (pathSectionInvariant a))) =
      some (0, 7, 0, 0, false) := by
  decide
